import Mathlib

/-!
Verification of the streaming session-fusion and alerting pipeline of the
stress-analysis backend.  The definitions below are a shallow embedding of
`src/backend/config.py`, `src/backend/fusion_engine/classifier.py`,
`src/backend/fusion_engine/fusion.py`, `src/backend/utils/session_manager.py`
and `src/backend/utils/alert_manager.py`.  Python floats are modelled as
exact rationals, Python dicts keyed by strings as functions
`String → Option _` (for the per-session stores) or as association lists in
insertion order (for `emotion_counts` and `active_alerts`), and
`collections.deque(maxlen=n)` as a list with a bounded push.  Wall-clock
timestamps (`time.time()`) are passed in explicitly, and the `uuid.uuid4()`
fresh identifier is passed in explicitly together with freshness hypotheses
where a theorem needs them.
-/

namespace StressSpec

/-! ### Configuration constants (src/backend/config.py) -/

def STRESS_LOW_THRESHOLD : ℚ := 33/100

def STRESS_HIGH_THRESHOLD : ℚ := 66/100

def ALERT_HIGH_STRESS_THRESHOLD : ℚ := 7/10

/-- Seconds (3 minutes). -/
def ALERT_HIGH_STRESS_DURATION : ℚ := 180

def ALERT_SPIKE_THRESHOLD : ℚ := 3/10

/-- Defined in config.py; stored by AlertManager but unused by its checks. -/
def ALERT_SPIKE_WINDOW : ℚ := 30

def SESSION_MAX_HISTORY : ℕ := 1000

/-! ### Generic helpers -/

/-- Append on a `collections.deque(maxlen := n)`: the new element goes to the
right and, past capacity, the oldest elements fall off the left. -/
def pushBounded {α : Type} (n : ℕ) (xs : List α) (x : α) : List α :=
  (xs ++ [x]).drop (xs.length + 1 - n)

/-- Python dict lookup on an association list kept in insertion order. -/
def dget {β : Type} : List (String × β) → String → Option β
  | [], _ => none
  | (k, v) :: rest, key => if k = key then some v else dget rest key

/-- Python dict assignment: overwrite in place if the key exists, otherwise
append at the end (insertion order, as in Python 3.7+ dicts). -/
def dset {β : Type} : List (String × β) → String → β → List (String × β)
  | [], key, v => [(key, v)]
  | (k, w) :: rest, key, v =>
      if k = key then (key, v) :: rest else (k, w) :: dset rest key v

/-- Python `int()` applied to a real number: truncation toward zero. -/
def pyInt (q : ℚ) : ℤ := if 0 ≤ q then ⌊q⌋ else ⌈q⌉

/-- Python `max` over a non-empty list (first element as the seed). -/
def pyMax (x : ℚ) (xs : List ℚ) : ℚ := xs.foldl max x

/-- Python `min` over a non-empty list (first element as the seed). -/
def pyMin (x : ℚ) (xs : List ℚ) : ℚ := xs.foldl min x

/-! ### StressClassifier (src/backend/fusion_engine/classifier.py) -/

structure Classification where
  level : String
  score : ℚ
  color : String
  descr : String
  advice : String
deriving DecidableEq

/-- `StressClassifier.classify`.  The dict fields `description` and
`recommendation` are the fixed template strings of the source. -/
def classify (stress_score : ℚ) : Classification :=
  if stress_score < STRESS_LOW_THRESHOLD then
    { level := "Low", score := stress_score, color := "green",
      descr := "Worker appears calm and relaxed",
      advice := "Maintain current work conditions" }
  else if stress_score < STRESS_HIGH_THRESHOLD then
    { level := "Medium", score := stress_score, color := "yellow",
      descr := "Worker shows moderate stress indicators",
      advice := "Monitor closely for any changes" }
  else
    { level := "High", score := stress_score, color := "red",
      descr := "Worker shows elevated stress levels",
      advice := "Suggest taking a break and assess workload" }

/-- Severity rank of a level name, used to state monotonicity of `classify`. -/
def severity : String → ℕ
  | "Low" => 0
  | "Medium" => 1
  | "High" => 2
  | _ => 0

/-! ### MultimodalFusion (src/backend/fusion_engine/fusion.py) -/

/-- One modality result as consumed by `fuse_stress_scores`.  Fields are
optional because the source reads them with `dict.get(key, default)`. -/
structure ModalityInput where
  stress_score : Option ℚ
  stress_level : Option String
  confidence : Option ℚ
  emotion : Option String
deriving DecidableEq

/-- The per-modality echo embedded in a fused result. -/
structure ModalityEcho where
  stress_score : ℚ
  emotion : String
  confidence : ℚ
  stress_level : String
deriving DecidableEq

/-- The dictionary returned by `fuse_stress_scores`.  `weights` is
`(audio, video)` and is present only on the dual-modality path; `errMsg`
models the `'error'` key of the no-modality default result. -/
structure FusedResult where
  stress_score : ℚ
  stress_level : String
  confidence : ℚ
  modalities_used : List String
  audio : Option ModalityEcho
  video : Option ModalityEcho
  fusion_method : String
  modality_agreement : String
  weights : Option (ℚ × ℚ)
  errMsg : Option String
deriving DecidableEq

/-- `MultimodalFusion._classify_stress_level`. -/
def classify_stress_level (stress_score : ℚ) : String :=
  if stress_score < STRESS_LOW_THRESHOLD then "Low"
  else if stress_score < STRESS_HIGH_THRESHOLD then "Medium"
  else "High"

/-- `MultimodalFusion._dual_modality_fusion`. -/
def dual_modality_fusion (audio_result video_result : ModalityInput) : FusedResult :=
  let audio_stress := audio_result.stress_score.getD (1/2)
  let audio_conf := audio_result.confidence.getD (1/2)
  let video_stress := video_result.stress_score.getD (1/2)
  let video_conf := video_result.confidence.getD (1/2)
  let total_conf := audio_conf + video_conf
  let dynamic_audio_weight := if 0 < total_conf then audio_conf / total_conf else 1/2
  let dynamic_video_weight := if 0 < total_conf then video_conf / total_conf else 1/2
  let fused_stress := dynamic_audio_weight * audio_stress + dynamic_video_weight * video_stress
  let fused_confidence := (audio_conf + video_conf) / 2
  let fused_level := classify_stress_level fused_stress
  let agreement :=
    if |audio_stress - video_stress| < 1/10 then "high"
    else if |audio_stress - video_stress| < 3/10 then "medium"
    else "low"
  { stress_score := fused_stress,
    stress_level := fused_level,
    confidence := fused_confidence,
    modalities_used := ["audio", "video"],
    audio := some ⟨audio_stress, audio_result.emotion.getD "neutral", audio_conf,
                   audio_result.stress_level.getD "Medium"⟩,
    video := some ⟨video_stress, video_result.emotion.getD "neutral", video_conf,
                   video_result.stress_level.getD "Medium"⟩,
    fusion_method := "confidence_weighted_average",
    modality_agreement := agreement,
    weights := some (dynamic_audio_weight, dynamic_video_weight),
    errMsg := none }

/-- `MultimodalFusion._single_modality_result`. -/
def single_modality_result (result : ModalityInput) (modality : String) : FusedResult :=
  let stress_score := result.stress_score.getD (1/2)
  let confidence := result.confidence.getD (1/2)
  let emotion := result.emotion.getD "neutral"
  let stress_level := result.stress_level.getD "Medium"
  let echo : ModalityEcho := ⟨stress_score, emotion, confidence, stress_level⟩
  { stress_score := stress_score,
    stress_level := stress_level,
    confidence := confidence,
    modalities_used := [modality],
    audio := if modality = "audio" then some echo else none,
    video := if modality = "video" then some echo else none,
    fusion_method := "single_modality",
    modality_agreement := "N/A",
    weights := none,
    errMsg := none }

/-- `MultimodalFusion._get_default_result`. -/
def get_default_result : FusedResult :=
  { stress_score := 1/2,
    stress_level := "Medium",
    confidence := 0,
    modalities_used := [],
    audio := none,
    video := none,
    fusion_method := "none",
    modality_agreement := "N/A",
    weights := none,
    errMsg := some "No modality data available" }

/-- `MultimodalFusion.fuse_stress_scores`. -/
def fuse_stress_scores (audio_result video_result : Option ModalityInput) : FusedResult :=
  match audio_result, video_result with
  | none, none => get_default_result
  | none, some v => single_modality_result v "video"
  | some a, none => single_modality_result a "audio"
  | some a, some v => dual_modality_fusion a v

/-! ### SessionManager (src/backend/utils/session_manager.py) -/

/-- One entry of a session's `stress_history` deque. -/
structure HistoryEntry where
  timestamp : ℚ
  stress_score : ℚ
  stress_level : String
  emotion : String
  modalities : List String
deriving DecidableEq

/-- One session dict of `SessionManager.sessions`.  `end_time` is absent
until `end_session` writes it, hence an `Option`. -/
structure Session where
  session_id : String
  worker_id : String
  start_time : ℚ
  stress_history : List HistoryEntry
  emotion_counts : List (String × ℕ)
  total_updates : ℕ
  current_stress : ℚ
  current_emotion : String
  status : String
  end_time : Option ℚ
deriving DecidableEq

/-- The analytics dict of `_calculate_analytics`.  The source rounds the
numeric fields for display (`round(x, 3)` etc.); the model keeps the exact
rationals.  `data_points` is absent from the empty-history dict, hence an
`Option`. -/
structure Analytics where
  average_stress : ℚ
  peak_stress : ℚ
  min_stress : ℚ
  stress_variance : ℚ
  emotion_distrib : List (String × ℚ)
  high_stress_percentage : ℚ
  data_points : Option ℕ
deriving DecidableEq

/-- The dict returned by `get_session_info`.  The display-only
`duration_formatted` string of `_format_duration` is omitted. -/
structure SessionInfo where
  session_id : String
  worker_id : String
  dur : ℚ
  status : String
  current_stress : ℚ
  current_emotion : String
  total_updates : ℕ
  analytics : Analytics
deriving DecidableEq

/-- The whole `SessionManager`: its `sessions` dict as a partial map. -/
structure SessionManager where
  sessions : String → Option Session

/-- The fresh session dict built by `create_session`.  The source computes
`worker_id or f'worker_{session_id[:8]}'`; Python `or` also replaces an
empty string. -/
def newSession (freshId : String) (workerId : Option String) (now : ℚ) : Session :=
  let dflt := "worker_" ++ freshId.take 8
  { session_id := freshId,
    worker_id := match workerId with
                 | none => dflt
                 | some w => if w = "" then dflt else w,
    start_time := now,
    stress_history := [],
    emotion_counts := [],
    total_updates := 0,
    current_stress := 1/2,
    current_emotion := "neutral",
    status := "active",
    end_time := none }

/-- `SessionManager.create_session`, with the `uuid.uuid4()` identifier and
`time.time()` passed in explicitly. -/
def create_session (m : SessionManager) (freshId : String) (workerId : Option String)
    (now : ℚ) : SessionManager × String :=
  (⟨fun k => if k = freshId then some (newSession freshId workerId now) else m.sessions k⟩,
   freshId)

/-- The dominant emotion of a fused result as read by `update_session`:
`fused_result.get('audio', {}).get('emotion', 'neutral')`.  The source also
reads the video emotion but then always prefers the audio one. -/
def primaryEmotion (fr : FusedResult) : String :=
  match fr.audio with
  | some e => e.emotion
  | none => "neutral"

/-- The history entry appended by `update_session`. -/
def entryOf (fr : FusedResult) (now : ℚ) : HistoryEntry :=
  { timestamp := now,
    stress_score := fr.stress_score,
    stress_level := fr.stress_level,
    emotion := primaryEmotion fr,
    modalities := fr.modalities_used }

/-- The in-place mutation of one session dict performed by `update_session`
once the session exists: append to the bounded history, bump the emotion
count, refresh the current state and recompute the status. -/
def applyFused (s : Session) (fr : FusedResult) (now : ℚ) : Session :=
  let e := primaryEmotion fr
  { s with
    stress_history := pushBounded SESSION_MAX_HISTORY s.stress_history (entryOf fr now),
    emotion_counts := dset s.emotion_counts e (((dget s.emotion_counts e).getD 0) + 1),
    current_stress := fr.stress_score,
    current_emotion := e,
    total_updates := s.total_updates + 1,
    status := if ALERT_HIGH_STRESS_THRESHOLD ≤ fr.stress_score then "at_risk" else "normal" }

/-- `SessionManager._calculate_analytics`.  Exact rationals stand in for the
rounded floats of the source. -/
def calculate_analytics (s : Session) : Analytics :=
  match s.stress_history with
  | [] =>
      { average_stress := 1/2, peak_stress := 1/2, min_stress := 1/2,
        stress_variance := 0, emotion_distrib := [],
        high_stress_percentage := 0, data_points := none }
  | h :: t =>
      let scores := (h :: t).map (fun e => e.stress_score)
      let n : ℚ := scores.length
      let avg := scores.sum / n
      let variance := (scores.map (fun x => (x - avg) * (x - avg))).sum / n
      let highCount := (scores.filter (fun x => decide (STRESS_HIGH_THRESHOLD ≤ x))).length
      let totalEmotions := (s.emotion_counts.map (fun p => p.2)).sum
      { average_stress := avg,
        peak_stress := pyMax h.stress_score (t.map (fun e => e.stress_score)),
        min_stress := pyMin h.stress_score (t.map (fun e => e.stress_score)),
        stress_variance := variance,
        emotion_distrib :=
          s.emotion_counts.map (fun p => (p.1, ((p.2 : ℚ) / (totalEmotions : ℚ)) * 100)),
        high_stress_percentage := ((highCount : ℚ) / n) * 100,
        data_points := some (h :: t).length }

/-- `SessionManager.get_session_info`, with `time.time()` passed as `now`. -/
def get_session_info (m : SessionManager) (sid : String) (now : ℚ) : Option SessionInfo :=
  match m.sessions sid with
  | none => none
  | some s =>
      some { session_id := s.session_id,
             worker_id := s.worker_id,
             dur := now - s.start_time,
             status := s.status,
             current_stress := s.current_stress,
             current_emotion := s.current_emotion,
             total_updates := s.total_updates,
             analytics := calculate_analytics s }

/-- `SessionManager.update_session`.  When `sid` is unknown the source calls
`create_session()` and continues under the freshly generated identifier;
that identifier is the explicit `freshId` argument here.  The single `now`
stands for the two `time.time()` calls of the source. -/
def update_session (m : SessionManager) (sid : String) (fr : FusedResult)
    (freshId : String) (now : ℚ) : SessionManager × Option SessionInfo :=
  let m0 := if (m.sessions sid).isNone then (create_session m freshId none now).1 else m
  let sid0 := if (m.sessions sid).isNone then freshId else sid
  match m0.sessions sid0 with
  | none => (m0, none)
  | some s =>
      let s2 := applyFused s fr now
      let m2 : SessionManager := ⟨fun k => if k = sid0 then some s2 else m0.sessions k⟩
      (m2, get_session_info m2 sid0 now)

/-- One point of `get_stress_timeline`. -/
structure TimelinePoint where
  timestamp : ℚ
  stress_score : ℚ
  stress_level : String
  emotion : String
deriving DecidableEq

/-- `SessionManager.get_stress_timeline`.  The source slices
`history[-limit:]` when `len(history) > limit`; for `limit = 0` that Python
slice is the whole list, which the inner conditional mirrors. -/
def get_stress_timeline (m : SessionManager) (sid : String) (limit : ℕ) : List TimelinePoint :=
  match m.sessions sid with
  | none => []
  | some s =>
      let history := s.stress_history
      let recent :=
        if limit < history.length then
          (if limit = 0 then history else history.drop (history.length - limit))
        else history
      recent.map (fun e => ⟨e.timestamp, e.stress_score, e.stress_level, e.emotion⟩)

/-- `SessionManager.end_session`. -/
def end_session (m : SessionManager) (sid : String) (now : ℚ) : SessionManager :=
  match m.sessions sid with
  | none => m
  | some s =>
      ⟨fun k => if k = sid then some { s with status := "ended", end_time := some now }
                else m.sessions k⟩

/-- `SessionManager.delete_session`. -/
def delete_session (m : SessionManager) (sid : String) : SessionManager :=
  ⟨fun k => if k = sid then none else m.sessions k⟩

/-- Repeated `update_session` calls on one session id; each pair carries the
fused result and the `time.time()` of that update.  The fresh-id argument is
irrelevant while the session exists. -/
def runUpdates (m : SessionManager) (sid : String)
    (ups : List (FusedResult × ℚ)) : SessionManager :=
  ups.foldl (fun acc p => (update_session acc sid p.1 "" p.2).1) m

/-! ### AlertManager (src/backend/utils/alert_manager.py) -/

/-- One entry of an alert-manager session history deque. -/
structure AlertEntry where
  score : ℚ
  timestamp : ℚ
deriving DecidableEq

/-- The keys of the `active_alerts` dict of one session.  The source uses
the strings `'sustained_high_stress'` and `f'spike_{int(timestamp)}'`; the
two families never collide and distinct integers give distinct strings, so
this inductive is a faithful key model. -/
inductive AlertKey where
  | sustained
  | spike (sec : ℤ)
deriving DecidableEq

/-- The alert dict fields the spec reasons about.  `title`, `message`,
`recommendations` are fixed template text per alert type and are omitted. -/
structure Alert where
  atype : String
  sev : String
  timestamp : ℚ
  prio : String
deriving DecidableEq

/-- The per-session state of the AlertManager: the `session_history` deque
and the `active_alerts` dict (keys with the time they fired, in insertion
order).  The source keeps these in two dicts that are always populated
together, so one record per session is equivalent. -/
structure SessionAlertState where
  hist : List AlertEntry
  act : List (AlertKey × ℚ)
deriving DecidableEq

/-- Key membership in an `active_alerts` dict. -/
def hasKeyB (act : List (AlertKey × ℚ)) (k : AlertKey) : Bool :=
  act.any (fun p => decide (p.1 = k))

/-- `AlertManager._check_sustained_high_stress` on one session: reads the
history and the fired-key set, may fire once and record the key. -/
def sustainedCheck (hist : List AlertEntry) (act : List (AlertKey × ℚ))
    (current_time : ℚ) : Option Alert × List (AlertKey × ℚ) :=
  let cutoff_time := current_time - ALERT_HIGH_STRESS_DURATION
  let recent_high := hist.filter
    (fun e => decide (cutoff_time ≤ e.timestamp) && decide (ALERT_HIGH_STRESS_THRESHOLD ≤ e.score))
  let total_recent := hist.filter (fun e => decide (cutoff_time ≤ e.timestamp))
  if 0 < total_recent.length then
    if (8 : ℚ)/10 ≤ (recent_high.length : ℚ) / (total_recent.length : ℚ) then
      if hasKeyB act AlertKey.sustained then (none, act)
      else
        (some { atype := "sustained_high_stress", sev := "high",
                timestamp := current_time, prio := "urgent" },
         act ++ [(AlertKey.sustained, current_time)])
    else (none, act)
  else (none, act)

/-- The scores compared against the newest one in `_check_stress_spike`:
`history[i]` for `i` in `range(-window_size - 1, -1)` with
`window_size = min(5, len(history) - 1)`. -/
def prevWindowScores (hist : List AlertEntry) : List ℚ :=
  let ws := min 5 (hist.length - 1)
  ((hist.take (hist.length - 1)).drop (hist.length - 1 - ws)).map (fun e => e.score)

/-- `AlertManager._check_stress_spike` on one session. -/
def spikeCheck (hist : List AlertEntry) (act : List (AlertKey × ℚ)) :
    Option Alert × List (AlertKey × ℚ) :=
  match hist.getLast? with
  | none => (none, act)
  | some lastE =>
      if hist.length < 2 then (none, act)
      else
        let prev := prevWindowScores hist
        let previous_avg := prev.sum / (prev.length : ℚ)
        let spike := lastE.score - previous_avg
        if ALERT_SPIKE_THRESHOLD ≤ spike then
          let key := AlertKey.spike (pyInt lastE.timestamp)
          if hasKeyB act key then (none, act)
          else
            (some { atype := "sudden_stress_spike", sev := "medium",
                    timestamp := lastE.timestamp, prio := "high" },
             act ++ [(key, lastE.timestamp)])
        else (none, act)

/-- A session that has just been initialized (or cleared): empty history,
no fired keys. -/
def emptySAS : SessionAlertState := ⟨[], []⟩

/-- The body of `check_alerts` for one session: append the new sample to the
bounded history, then run the sustained check and the spike check in order,
threading the fired-key set. -/
def checkStep (s0 : SessionAlertState) (score ts : ℚ) :
    SessionAlertState × List Alert :=
  let hist1 := pushBounded 1000 s0.hist ⟨score, ts⟩
  let r1 := sustainedCheck hist1 s0.act ts
  let r2 := spikeCheck hist1 r1.2
  (⟨hist1, r2.2⟩, r1.1.toList ++ r2.1.toList)

/-- The whole `AlertManager`: one optional per-session state per id. -/
structure AlertManager where
  state : String → Option SessionAlertState

/-- `AlertManager.check_alerts` with the `time.time()` default passed as
`ts`: initializes the per-session state when absent, then runs the checks. -/
def check_alerts (m : AlertManager) (sid : String) (score ts : ℚ) :
    AlertManager × List Alert :=
  (⟨fun k => if k = sid then some (checkStep ((m.state sid).getD emptySAS) score ts).1
             else m.state k⟩,
   (checkStep ((m.state sid).getD emptySAS) score ts).2)

/-- `AlertManager.clear_session`: drops both per-session dict entries. -/
def clear_session (m : AlertManager) (sid : String) : AlertManager :=
  ⟨fun k => if k = sid then none else m.state k⟩

/-- A call sequence against the AlertManager. -/
inductive AlertOp where
  | check (sid : String) (score ts : ℚ)
  | clear (sid : String)
deriving DecidableEq

/-- Apply one call; alerts are tagged with the session they were raised for. -/
def applyOp (m : AlertManager) : AlertOp → AlertManager × List (String × Alert)
  | AlertOp.check sid score ts =>
      ((check_alerts m sid score ts).1,
       (check_alerts m sid score ts).2.map (fun a => (sid, a)))
  | AlertOp.clear sid => (clear_session m sid, [])

/-- Run a call sequence, collecting all raised alerts in order. -/
def runOps : AlertManager → List AlertOp → AlertManager × List (String × Alert)
  | m, [] => (m, [])
  | m, op :: rest =>
      ((runOps (applyOp m op).1 rest).1,
       (applyOp m op).2 ++ (runOps (applyOp m op).1 rest).2)

/-- Whether the one-shot sustained-high-stress key has fired for `sid`. -/
def sustainedFired (m : AlertManager) (sid : String) : Bool :=
  hasKeyB ((m.state sid).getD emptySAS).act AlertKey.sustained

/-- Whether the spike key for integer second `j` has fired for `sid`. -/
def spikeFired (m : AlertManager) (sid : String) (j : ℤ) : Bool :=
  hasKeyB ((m.state sid).getD emptySAS).act (AlertKey.spike j)

/-- Number of alerts of a given type raised in a single check. -/
def countA (as : List Alert) (ty : String) : ℕ :=
  (as.filter (fun a => decide (a.atype = ty))).length

/-- Number of alerts of a given type raised for a given session in a run. -/
def countType (out : List (String × Alert)) (sid : String) (ty : String) : ℕ :=
  (out.filter (fun p => decide (p.1 = sid) && decide (p.2.atype = ty))).length

/-- The spike keys (integer seconds) of the spike alerts in a list. -/
def spikeKeysA (as : List Alert) : List ℤ :=
  (as.filter (fun a => decide (a.atype = "sudden_stress_spike"))).map
    (fun a => pyInt a.timestamp)

/-- The spike keys of the spike alerts raised for a given session in a run. -/
def spikeKeysFor (out : List (String × Alert)) (sid : String) : List ℤ :=
  spikeKeysA ((out.filter (fun p => decide (p.1 = sid))).map (fun p => p.2))

/-- A session store with no sessions, as after `SessionManager.__init__`. -/
def emptySM : SessionManager := ⟨fun _ => none⟩

/-- An alert manager with no per-session state, as after
`AlertManager.__init__`. -/
def emptyAM : AlertManager := ⟨fun _ => none⟩

/-! ### Helper lemmas: bounded deques -/

theorem length_pushBounded {α : Type} (n : ℕ) (xs : List α) (x : α) :
    (pushBounded n xs x).length = min (xs.length + 1) n := by
  simp only [pushBounded, List.length_drop, List.length_append, List.length_cons,
    List.length_nil]
  omega

theorem foldl_pushBounded {α : Type} (n : ℕ) :
    ∀ (vs : List α) (acc : List α), acc.length ≤ n →
      List.foldl (pushBounded n) acc vs = (acc ++ vs).drop (acc.length + vs.length - n) := by
  intro vs
  induction vs with
  | nil =>
      intro acc h
      simp [Nat.sub_eq_zero_of_le h]
  | cons x vs ih =>
      intro acc h
      rw [List.foldl_cons, ih (pushBounded n acc x) (by rw [length_pushBounded]; omega)]
      have hd : acc.length + 1 - n ≤ (acc ++ [x]).length := by
        simp only [List.length_append, List.length_cons, List.length_nil]
        omega
      rw [length_pushBounded, pushBounded, ← List.drop_append_of_le_length hd,
        List.drop_drop, List.append_assoc, List.singleton_append]
      congr 1
      simp only [List.length_cons]
      omega

/-! ### Helper lemmas: session store -/

theorem update_session_present (m : SessionManager) (sid : String) (fr : FusedResult)
    (g : String) (now : ℚ) (s : Session) (h : m.sessions sid = some s) :
    (update_session m sid fr g now).1.sessions sid = some (applyFused s fr now) := by
  simp only [update_session, h, Option.isNone_some, if_false, Bool.false_eq_true,
    ite_true, ite_false]

theorem runUpdates_present (sid : String) :
    ∀ (ups : List (FusedResult × ℚ)) (m : SessionManager) (s : Session),
      m.sessions sid = some s →
      (runUpdates m sid ups).sessions sid =
        some (ups.foldl (fun acc p => applyFused acc p.1 p.2) s) := by
  intro ups
  induction ups with
  | nil => intro m s h; simpa [runUpdates] using h
  | cons p rest ih =>
      intro m s h
      simp only [runUpdates, List.foldl_cons] at ih ⊢
      exact ih _ _ (update_session_present m sid p.1 "" p.2 s h)

theorem foldl_applyFused_history :
    ∀ (ups : List (FusedResult × ℚ)) (s : Session),
      (ups.foldl (fun acc p => applyFused acc p.1 p.2) s).stress_history =
        List.foldl (pushBounded SESSION_MAX_HISTORY) s.stress_history
          (ups.map (fun p => entryOf p.1 p.2)) := by
  intro ups
  induction ups with
  | nil => intro s; rfl
  | cons p rest ih =>
      intro s
      have hproj : (applyFused s p.1 p.2).stress_history
          = pushBounded SESSION_MAX_HISTORY s.stress_history (entryOf p.1 p.2) := by
        simp [applyFused]
      simp only [List.foldl_cons, List.map_cons]
      rw [ih, hproj]

theorem pushBounded_of_small {α : Type} {n : ℕ} (xs : List α) (x : α)
    (h : xs.length + 1 ≤ n) : pushBounded n xs x = xs ++ [x] := by
  simp [pushBounded, Nat.sub_eq_zero_of_le h]

theorem applyFused_history (s : Session) (fr : FusedResult) (now : ℚ) :
    (applyFused s fr now).stress_history
      = pushBounded SESSION_MAX_HISTORY s.stress_history (entryOf fr now) := by
  simp [applyFused]

theorem applyFused_status (s : Session) (fr : FusedResult) (now : ℚ) :
    (applyFused s fr now).status
      = if ALERT_HIGH_STRESS_THRESHOLD ≤ fr.stress_score then "at_risk" else "normal" := by
  simp [applyFused]

theorem applyFused_counts (s : Session) (fr : FusedResult) (now : ℚ) :
    (applyFused s fr now).emotion_counts
      = dset s.emotion_counts (primaryEmotion fr)
          (((dget s.emotion_counts (primaryEmotion fr)).getD 0) + 1) := by
  simp [applyFused]

/-! ### Claim C1 -/

/-- Claim C1: for every session and every sequence of updates applied to it,
the stress history length never exceeds the capacity `SESSION_MAX_HISTORY`
(1000), and eviction is strictly oldest-first: after the updates the stored
history is exactly the most recent `SESSION_MAX_HISTORY` entries in
insertion order, i.e. the first `len - 1000` entries have been dropped. -/
theorem claim1_history_bounded_oldest_first (start : SessionManager) (freshId : String)
    (wid : Option String) (t0 : ℚ) (ups : List (FusedResult × ℚ)) :
    ((runUpdates (create_session start freshId wid t0).1 freshId ups).sessions freshId).map
        (fun s => s.stress_history) =
      some ((ups.map (fun p => entryOf p.1 p.2)).drop (ups.length - SESSION_MAX_HISTORY)) ∧
    ((runUpdates (create_session start freshId wid t0).1 freshId ups).sessions freshId).map
        (fun s => s.stress_history.length) =
      some (min ups.length SESSION_MAX_HISTORY) ∧
    min ups.length SESSION_MAX_HISTORY ≤ SESSION_MAX_HISTORY := by
  have hcreated : (create_session start freshId wid t0).1.sessions freshId
      = some (newSession freshId wid t0) := by
    simp [create_session]
  have hrun := runUpdates_present freshId ups _ _ hcreated
  have hhist := foldl_applyFused_history ups (newSession freshId wid t0)
  rw [show (newSession freshId wid t0).stress_history = [] from rfl] at hhist
  rw [foldl_pushBounded SESSION_MAX_HISTORY _ [] (by simp)] at hhist
  simp only [List.nil_append, List.length_nil, Nat.zero_add, List.length_map] at hhist
  refine ⟨?_, ?_, Nat.min_le_right _ _⟩
  · rw [hrun]
    simp only [Option.map_some']
    exact congrArg some hhist
  · rw [hrun]
    simp only [Option.map_some', hhist, List.length_drop, List.length_map]
    exact congrArg some (by omega)

/-! ### Claims C7 and C10 -/

theorem update_session_unknown (m : SessionManager) (sid g : String) (fr : FusedResult)
    (now : ℚ) (hsid : m.sessions sid = none) :
    (update_session m sid fr g now).1.sessions g
        = some (applyFused (newSession g none now) fr now) ∧
    (update_session m sid fr g now).2
        = get_session_info (update_session m sid fr g now).1 g now := by
  simp only [update_session, hsid, Option.isNone_none, create_session, ite_true, if_true]
  constructor
  · simp
  · simp

theorem update_session_unknown_other (m : SessionManager) (sid g : String) (fr : FusedResult)
    (now : ℚ) (hsid : m.sessions sid = none) (hne : sid ≠ g) :
    (update_session m sid fr g now).1.sessions sid = none := by
  simp only [update_session, hsid, Option.isNone_none, create_session, ite_true, if_true]
  simp [hne, hsid]

/-- Claim C7: for every fused result and every session id unknown to the
store, `update_session` is total, returns a non-`none` `SessionInfo` for the
newly created session, and applies the update's score, level and emotion to
that new session (the stored history entry carries the level). -/
theorem claim7_update_unknown_creates (m : SessionManager) (sid g : String)
    (fr : FusedResult) (now : ℚ) (hsid : m.sessions sid = none) :
    ((update_session m sid fr g now).2.map (fun i => i.session_id) = some g) ∧
    ((update_session m sid fr g now).2.map (fun i => i.current_stress)
        = some fr.stress_score) ∧
    ((update_session m sid fr g now).2.map (fun i => i.current_emotion)
        = some (primaryEmotion fr)) ∧
    ((update_session m sid fr g now).2.map (fun i => i.total_updates) = some 1) ∧
    (((update_session m sid fr g now).1.sessions g).map (fun s => s.stress_history)
        = some [entryOf fr now]) := by
  obtain ⟨h1, h2⟩ := update_session_unknown m sid g fr now hsid
  rw [h2]
  simp only [get_session_info, h1, Option.map_some']
  refine ⟨rfl, rfl, rfl, rfl, ?_⟩
  have : (applyFused (newSession g none now) fr now).stress_history = [entryOf fr now] := by
    simp [applyFused, newSession, pushBounded]
    rw [show (1 : ℕ) - SESSION_MAX_HISTORY = 0 by decide]
    rfl
  rw [this]

/-- Claim C7 witness: a concrete unknown-session update. -/
theorem claim7_update_unknown_creates_witness :
    ((update_session emptySM "x" get_default_result "g" 0).2.map (fun i => i.session_id)
        = some "g") ∧
    ((update_session emptySM "x" get_default_result "g" 0).2.map (fun i => i.current_stress)
        = some get_default_result.stress_score) ∧
    ((update_session emptySM "x" get_default_result "g" 0).2.map (fun i => i.current_emotion)
        = some (primaryEmotion get_default_result)) ∧
    ((update_session emptySM "x" get_default_result "g" 0).2.map (fun i => i.total_updates)
        = some 1) ∧
    (((update_session emptySM "x" get_default_result "g" 0).1.sessions "g").map
        (fun s => s.stress_history) = some [entryOf get_default_result 0]) :=
  claim7_update_unknown_creates emptySM "x" "g" get_default_result 0 rfl

/-- Claim C10: when `update_session` is called with an unknown id, the new
session carries the freshly generated identifier (distinct from the passed
one, as a `uuid4` value is), the returned info names that fresh id and not
the passed one, and an info query on the passed id still returns `none`. -/
theorem claim10_auto_create_fresh_id (m : SessionManager) (sid g : String)
    (fr : FusedResult) (now now2 : ℚ)
    (hsid : m.sessions sid = none) (hne : g ≠ sid) :
    ((update_session m sid fr g now).2.map (fun i => i.session_id) = some g) ∧
    ((update_session m sid fr g now).2.map (fun i => i.session_id) ≠ some sid) ∧
    get_session_info (update_session m sid fr g now).1 sid now2 = none := by
  obtain ⟨h1, h2⟩ := update_session_unknown m sid g fr now hsid
  have hlook := update_session_unknown_other m sid g fr now hsid (fun h => hne h.symm)
  refine ⟨?_, ?_, ?_⟩
  · rw [h2]
    simp only [get_session_info, h1, Option.map_some']
    rfl
  · rw [h2]
    simp only [get_session_info, h1, Option.map_some']
    intro h
    exact hne (by simpa [applyFused, newSession] using h)
  · simp [get_session_info, hlook]

/-- Claim C10 witness: a concrete auto-creating update under a fresh id. -/
theorem claim10_auto_create_fresh_id_witness :
    ((update_session emptySM "x" get_default_result "g" 0).2.map (fun i => i.session_id)
        = some "g") ∧
    ((update_session emptySM "x" get_default_result "g" 0).2.map (fun i => i.session_id)
        ≠ some "x") ∧
    get_session_info (update_session emptySM "x" get_default_result "g" 0).1 "x" 1 = none :=
  claim10_auto_create_fresh_id emptySM "x" "g" get_default_result 0 1 rfl (by decide)

/-! ### Claim C8 -/

/-- Claim C8 counterexample: create a session, update it once, end it
(history length 1, one neutral emotion count, status ended), then update the
same id again.  The claim says the stored history, emotion counts and status
stay unchanged after Ended, but the code appends a second history entry,
bumps the neutral count to 2, and overwrites the status with normal. -/
theorem claim8_counterexample :
    (((end_session ((update_session ((create_session emptySM "s" none 0).1) "s"
          get_default_result "g" 1).1) "s" 2).sessions "s").map
        (fun t => (t.stress_history.length, t.emotion_counts, t.status))
      = some (1, [("neutral", 1)], "ended")) ∧
    (((update_session (end_session ((update_session ((create_session emptySM "s" none 0).1)
          "s" get_default_result "g" 1).1) "s" 2) "s" get_default_result "g" 3).1.sessions
          "s").map (fun t => (t.stress_history.length, t.emotion_counts, t.status))
      = some (2, [("neutral", 2)], "normal")) := by
  have h0 : ((create_session emptySM "s" none 0).1).sessions "s"
      = some (newSession "s" none 0) := by
    simp [create_session]
  have h1 := update_session_present ((create_session emptySM "s" none 0).1) "s"
      get_default_result "g" 1 _ h0
  have h2 : (end_session ((update_session ((create_session emptySM "s" none 0).1) "s"
        get_default_result "g" 1).1) "s" 2).sessions "s"
      = some { applyFused (newSession "s" none 0) get_default_result 1 with
               status := "ended", end_time := some 2 } := by
    simp [end_session, h1]
  have h3 := update_session_present _ "s" get_default_result "g" 3 _ h2
  have hist1 : (applyFused (newSession "s" none 0) get_default_result 1).stress_history
      = [entryOf get_default_result 1] := by
    rw [applyFused_history, pushBounded_of_small _ _ (by simp [newSession, SESSION_MAX_HISTORY])]
    simp [newSession]
  have counts1 : (applyFused (newSession "s" none 0) get_default_result 1).emotion_counts
      = [("neutral", 1)] := by
    rw [applyFused_counts]
    simp [newSession, primaryEmotion, get_default_result, dget, dset]
  constructor
  · rw [h2]
    simp only [Option.map_some']
    simp [hist1, counts1]
  · rw [h3]
    simp only [Option.map_some', applyFused_history, applyFused_status, applyFused_counts]
    rw [show (newSession "s" none 0).stress_history = [] from rfl]
    have e1 : pushBounded SESSION_MAX_HISTORY ([] : List HistoryEntry)
        (entryOf get_default_result 1) = [entryOf get_default_result 1] := by
      rw [pushBounded_of_small _ _ (by simp [SESSION_MAX_HISTORY])]
      simp
    rw [e1, pushBounded_of_small _ _ (by simp [SESSION_MAX_HISTORY])]
    rw [if_neg (by norm_num [ALERT_HIGH_STRESS_THRESHOLD, get_default_result])]
    simp [counts1, primaryEmotion, get_default_result, dget, dset]

/-- Claim C8 amended: `end_session` marks the session Ended and records the
end time without touching its data, and read queries (info, timeline) stay
valid and unchanged until the session is explicitly deleted; however a
subsequent `update_session` for the ended id is not ignored: it appends to
the stored history, bumps the emotion counts, and overwrites status with
at_risk/normal. -/
theorem claim8_ended_session_mutable (m : SessionManager) (sid g : String) (s : Session)
    (now now2 : ℚ) (fr : FusedResult) (lim : ℕ) (hs : m.sessions sid = some s) :
    ((end_session m sid now).sessions sid
        = some { s with status := "ended", end_time := some now }) ∧
    ((get_session_info (end_session m sid now) sid now2).isSome = true) ∧
    (get_stress_timeline (end_session m sid now) sid lim = get_stress_timeline m sid lim) ∧
    (get_session_info (delete_session (end_session m sid now) sid) sid now2 = none) ∧
    (((update_session (end_session m sid now) sid fr g now2).1.sessions sid).map
        (fun t => (t.stress_history, t.emotion_counts, t.status))
      = some (pushBounded SESSION_MAX_HISTORY s.stress_history (entryOf fr now2),
              dset s.emotion_counts (primaryEmotion fr)
                (((dget s.emotion_counts (primaryEmotion fr)).getD 0) + 1),
              if ALERT_HIGH_STRESS_THRESHOLD ≤ fr.stress_score then "at_risk"
              else "normal")) := by
  have hend : (end_session m sid now).sessions sid
      = some { s with status := "ended", end_time := some now } := by
    simp [end_session, hs]
  refine ⟨hend, ?_, ?_, ?_, ?_⟩
  · simp [get_session_info, hend]
  · simp only [get_stress_timeline, hend, hs]
  · simp [get_session_info, delete_session]
  · rw [update_session_present _ _ _ _ _ _ hend]
    simp [applyFused]

/-- Claim C8 amended witness: a concrete ended-then-updated session. -/
theorem claim8_ended_session_mutable_witness :
    ((end_session ((create_session emptySM "s" none 0).1) "s" 2).sessions "s"
        = some { newSession "s" none 0 with status := "ended", end_time := some 2 }) ∧
    ((get_session_info (end_session ((create_session emptySM "s" none 0).1) "s" 2) "s"
        3).isSome = true) ∧
    (get_stress_timeline (end_session ((create_session emptySM "s" none 0).1) "s" 2) "s" 100
        = get_stress_timeline ((create_session emptySM "s" none 0).1) "s" 100) ∧
    (get_session_info (delete_session (end_session ((create_session emptySM "s" none 0).1)
        "s" 2) "s") "s" 3 = none) ∧
    (((update_session (end_session ((create_session emptySM "s" none 0).1) "s" 2) "s"
          get_default_result "g" 3).1.sessions "s").map
        (fun t => (t.stress_history, t.emotion_counts, t.status))
      = some (pushBounded SESSION_MAX_HISTORY (newSession "s" none 0).stress_history
                (entryOf get_default_result 3),
              dset (newSession "s" none 0).emotion_counts (primaryEmotion get_default_result)
                (((dget (newSession "s" none 0).emotion_counts
                    (primaryEmotion get_default_result)).getD 0) + 1),
              if ALERT_HIGH_STRESS_THRESHOLD ≤ get_default_result.stress_score then "at_risk"
              else "normal")) :=
  claim8_ended_session_mutable ((create_session emptySM "s" none 0).1) "s" "g"
    (newSession "s" none 0) 2 3 get_default_result 100 (by simp [create_session])

/-! ### Claim C2 -/

/-- Claim C2: for every score in `[0,1]`, `classify` yields level Low iff
`score < 0.33`, Medium iff `0.33 ≤ score < 0.66`, High iff `score ≥ 0.66`;
hence the level is one of the three, and severity is monotone
non-decreasing in the score. -/
theorem claim2_classify_thresholds (s t : ℚ) (_h0 : 0 ≤ s) (_h1 : s ≤ 1)
    (_h0t : 0 ≤ t) (_h1t : t ≤ 1) (hst : s ≤ t) :
    ((classify s).level = "Low" ↔ s < 33/100) ∧
    ((classify s).level = "Medium" ↔ (33/100 ≤ s ∧ s < 66/100)) ∧
    ((classify s).level = "High" ↔ 66/100 ≤ s) ∧
    ((classify s).level = "Low" ∨ (classify s).level = "Medium" ∨
      (classify s).level = "High") ∧
    severity (classify s).level ≤ severity (classify t).level := by
  simp only [classify, STRESS_LOW_THRESHOLD, STRESS_HIGH_THRESHOLD]
  split_ifs with ha hb hc hd he hf <;>
    refine ⟨?_, ?_, ?_, ?_, ?_⟩ <;>
    simp_all [severity] <;>
    linarith

/-- Claim C2 witness: concrete scores 1/4 and 1/2. -/
theorem claim2_classify_thresholds_witness :
    ((classify (1/4)).level = "Low" ↔ (1:ℚ)/4 < 33/100) ∧
    ((classify (1/4)).level = "Medium" ↔ ((33:ℚ)/100 ≤ 1/4 ∧ (1:ℚ)/4 < 66/100)) ∧
    ((classify (1/4)).level = "High" ↔ (66:ℚ)/100 ≤ 1/4) ∧
    ((classify (1/4)).level = "Low" ∨ (classify (1/4)).level = "Medium" ∨
      (classify (1/4)).level = "High") ∧
    severity (classify (1/4)).level ≤ severity (classify (1/2)).level :=
  claim2_classify_thresholds (1/4) (1/2) (by norm_num) (by norm_num) (by norm_num)
    (by norm_num) (by norm_num)

/-! ### Claim C3 -/

/-- Claim C3 counterexample: fusing audio (score 0.2, confidence 0.8) with
video (score 0.8, confidence 0.2) does give weights (0.8, 0.2), fused score
0.32 and agreement low, but the fused level is not Medium: 0.32 is below
the 0.33 low threshold, so `_classify_stress_level` returns Low. -/
theorem claim3_counterexample :
    (fuse_stress_scores (some ⟨some (1/5), none, some (4/5), none⟩)
        (some ⟨some (4/5), none, some (1/5), none⟩)).stress_score = 8/25 ∧
    (fuse_stress_scores (some ⟨some (1/5), none, some (4/5), none⟩)
        (some ⟨some (4/5), none, some (1/5), none⟩)).weights = some (4/5, 1/5) ∧
    (fuse_stress_scores (some ⟨some (1/5), none, some (4/5), none⟩)
        (some ⟨some (4/5), none, some (1/5), none⟩)).modality_agreement = "low" ∧
    (fuse_stress_scores (some ⟨some (1/5), none, some (4/5), none⟩)
        (some ⟨some (4/5), none, some (1/5), none⟩)).stress_level ≠ "Medium" := by
  norm_num [fuse_stress_scores, dual_modality_fusion, classify_stress_level,
    STRESS_LOW_THRESHOLD, STRESS_HIGH_THRESHOLD]
  rw [show |(3:ℚ)/5| = 3/5 from abs_of_nonneg (by norm_num)]
  norm_num
  decide

/-- Claim C3 amended: the same scenario with the level it actually
produces: dynamic weights (0.8, 0.2), fused score 0.32, fused level Low
(because 0.32 < 0.33), modality agreement low. -/
theorem claim3_scenario_fused_values :
    (fuse_stress_scores (some ⟨some (1/5), none, some (4/5), none⟩)
        (some ⟨some (4/5), none, some (1/5), none⟩)).stress_score = 8/25 ∧
    (fuse_stress_scores (some ⟨some (1/5), none, some (4/5), none⟩)
        (some ⟨some (4/5), none, some (1/5), none⟩)).weights = some (4/5, 1/5) ∧
    (fuse_stress_scores (some ⟨some (1/5), none, some (4/5), none⟩)
        (some ⟨some (4/5), none, some (1/5), none⟩)).modality_agreement = "low" ∧
    (fuse_stress_scores (some ⟨some (1/5), none, some (4/5), none⟩)
        (some ⟨some (4/5), none, some (1/5), none⟩)).stress_level = "Low" := by
  norm_num [fuse_stress_scores, dual_modality_fusion, classify_stress_level,
    STRESS_LOW_THRESHOLD, STRESS_HIGH_THRESHOLD]
  rw [show |(3:ℚ)/5| = 3/5 from abs_of_nonneg (by norm_num)]
  norm_num

/-! ### Claim C4 -/

/-- Claim C4: with both modalities present and nonnegative confidences, the
dynamic weights are exactly (0.5, 0.5) when both confidences are zero (no
division by zero), and confidence shares otherwise. -/
theorem claim4_dynamic_weights (a v : ModalityInput)
    (ha : 0 ≤ a.confidence.getD (1/2)) (hv : 0 ≤ v.confidence.getD (1/2)) :
    (fuse_stress_scores (some a) (some v)).weights
      = some (if a.confidence.getD (1/2) = 0 ∧ v.confidence.getD (1/2) = 0
              then ((1:ℚ)/2, (1:ℚ)/2)
              else (a.confidence.getD (1/2)
                      / (a.confidence.getD (1/2) + v.confidence.getD (1/2)),
                    v.confidence.getD (1/2)
                      / (a.confidence.getD (1/2) + v.confidence.getD (1/2)))) := by
  simp only [fuse_stress_scores, dual_modality_fusion]
  by_cases h : a.confidence.getD (1/2) = 0 ∧ v.confidence.getD (1/2) = 0
  · rw [if_pos h, if_neg (by rw [h.1, h.2]; norm_num), if_neg (by rw [h.1, h.2]; norm_num)]
  · have hpos : 0 < a.confidence.getD (1/2) + v.confidence.getD (1/2) := by
      rcases eq_or_lt_of_le ha with ha0 | ha0
      · rcases eq_or_lt_of_le hv with hv0 | hv0
        · exact absurd ⟨ha0.symm, hv0.symm⟩ h
        · linarith
      · linarith
    rw [if_neg h, if_pos hpos, if_pos hpos]

/-- Claim C4 witness: both confidences exactly zero give the 0.5/0.5
split. -/
theorem claim4_dynamic_weights_witness :
    (fuse_stress_scores (some ⟨none, none, some 0, none⟩)
        (some ⟨none, none, some 0, none⟩)).weights
      = some (if (Option.some (0:ℚ)).getD (1/2) = 0 ∧ (Option.some (0:ℚ)).getD (1/2) = 0
              then ((1:ℚ)/2, (1:ℚ)/2)
              else ((Option.some (0:ℚ)).getD (1/2)
                      / ((Option.some (0:ℚ)).getD (1/2) + (Option.some (0:ℚ)).getD (1/2)),
                    (Option.some (0:ℚ)).getD (1/2)
                      / ((Option.some (0:ℚ)).getD (1/2) + (Option.some (0:ℚ)).getD (1/2)))) :=
  claim4_dynamic_weights ⟨none, none, some 0, none⟩ ⟨none, none, some 0, none⟩
    (by simp) (by simp)

/-! ### Claim C9 -/

/-- Claim C9: with exactly one modality present, fusion passes score, level
and confidence through unchanged (with the 0.5 / Medium / 0.5 defaults for
absent fields) and reports exactly that modality as used. -/
theorem claim9_single_modality_passthrough (r : ModalityInput) :
    ((fuse_stress_scores (some r) none).stress_score = r.stress_score.getD (1/2) ∧
     (fuse_stress_scores (some r) none).stress_level = r.stress_level.getD "Medium" ∧
     (fuse_stress_scores (some r) none).confidence = r.confidence.getD (1/2) ∧
     (fuse_stress_scores (some r) none).modalities_used = ["audio"] ∧
     (fuse_stress_scores (some r) none).fusion_method = "single_modality") ∧
    ((fuse_stress_scores none (some r)).stress_score = r.stress_score.getD (1/2) ∧
     (fuse_stress_scores none (some r)).stress_level = r.stress_level.getD "Medium" ∧
     (fuse_stress_scores none (some r)).confidence = r.confidence.getD (1/2) ∧
     (fuse_stress_scores none (some r)).modalities_used = ["video"] ∧
     (fuse_stress_scores none (some r)).fusion_method = "single_modality") := by
  simp [fuse_stress_scores, single_modality_result]

/-! ### Helper lemmas: alert checks -/

theorem hasKeyB_append (act : List (AlertKey × ℚ)) (k2 : AlertKey) (t : ℚ) (k : AlertKey) :
    hasKeyB (act ++ [(k2, t)]) k = (hasKeyB act k || decide (k2 = k)) := by
  simp [hasKeyB, List.any_append]

theorem countA_nil (ty : String) : countA [] ty = 0 := rfl

theorem countA_append (as bs : List Alert) (ty : String) :
    countA (as ++ bs) ty = countA as ty + countA bs ty := by
  simp [countA, List.filter_append]

theorem sustainedCheck_of_fired (hist : List AlertEntry) (act : List (AlertKey × ℚ))
    (now : ℚ) (h : hasKeyB act AlertKey.sustained = true) :
    sustainedCheck hist act now = (none, act) := by
  simp only [sustainedCheck]
  split_ifs with h1 h2 <;> simp_all

theorem sustainedCheck_none_act (hist : List AlertEntry) (act : List (AlertKey × ℚ))
    (now : ℚ) :
    (sustainedCheck hist act now).1 = none → (sustainedCheck hist act now).2 = act := by
  simp only [sustainedCheck]
  split_ifs <;> simp

theorem sustainedCheck_fires (hist : List AlertEntry) (act : List (AlertKey × ℚ))
    (now : ℚ) (a : Alert) :
    (sustainedCheck hist act now).1 = some a →
      a.atype = "sustained_high_stress" ∧
      hasKeyB (sustainedCheck hist act now).2 AlertKey.sustained = true := by
  simp only [sustainedCheck]
  split_ifs with h1 h2 h3
  · intro h; simp at h
  · intro h
    simp only [Option.some.injEq] at h
    subst h
    simp [hasKeyB_append]
  · intro h; simp at h
  · intro h; simp at h

theorem sustainedCheck_mono (hist : List AlertEntry) (act : List (AlertKey × ℚ))
    (now : ℚ) (k : AlertKey) (h : hasKeyB act k = true) :
    hasKeyB (sustainedCheck hist act now).2 k = true := by
  simp only [sustainedCheck]
  split_ifs <;> simp_all [hasKeyB_append]

theorem sustainedCheck_spike_inv (hist : List AlertEntry) (act : List (AlertKey × ℚ))
    (now : ℚ) (j : ℤ) :
    hasKeyB (sustainedCheck hist act now).2 (AlertKey.spike j)
      = hasKeyB act (AlertKey.spike j) := by
  simp only [sustainedCheck]
  split_ifs <;> simp [hasKeyB_append]

theorem spikeCheck_none_act (hist : List AlertEntry) (act : List (AlertKey × ℚ)) :
    (spikeCheck hist act).1 = none → (spikeCheck hist act).2 = act := by
  cases hl : hist.getLast? with
  | none => simp [spikeCheck, hl]
  | some lastE =>
      simp only [spikeCheck, hl]
      split_ifs <;> simp

theorem spikeCheck_fires (hist : List AlertEntry) (act : List (AlertKey × ℚ)) (a : Alert) :
    (spikeCheck hist act).1 = some a →
      a.atype = "sudden_stress_spike" ∧
      hasKeyB act (AlertKey.spike (pyInt a.timestamp)) = false ∧
      hasKeyB (spikeCheck hist act).2 (AlertKey.spike (pyInt a.timestamp)) = true := by
  cases hl : hist.getLast? with
  | none => simp [spikeCheck, hl]
  | some lastE =>
      simp only [spikeCheck, hl]
      split_ifs with h1 h2 h3
      · intro h; simp at h
      · intro h; simp at h
      · intro h
        simp only [Option.some.injEq] at h
        subst h
        refine ⟨rfl, ?_, ?_⟩
        · simpa using h3
        · simp [hasKeyB_append]
      · intro h; simp at h

theorem spikeCheck_mono (hist : List AlertEntry) (act : List (AlertKey × ℚ))
    (k : AlertKey) (h : hasKeyB act k = true) :
    hasKeyB (spikeCheck hist act).2 k = true := by
  cases hl : hist.getLast? with
  | none => simpa [spikeCheck, hl] using h
  | some lastE =>
      simp only [spikeCheck, hl]
      split_ifs <;> simp_all [hasKeyB_append]

theorem spikeCheck_sustained_inv (hist : List AlertEntry) (act : List (AlertKey × ℚ)) :
    hasKeyB (spikeCheck hist act).2 AlertKey.sustained
      = hasKeyB act AlertKey.sustained := by
  cases hl : hist.getLast? with
  | none => simp [spikeCheck, hl]
  | some lastE =>
      simp only [spikeCheck, hl]
      split_ifs <;> simp [hasKeyB_append]

theorem countA_spike_toList (hist : List AlertEntry) (act : List (AlertKey × ℚ)) :
    countA (spikeCheck hist act).1.toList "sustained_high_stress" = 0 := by
  cases hp : (spikeCheck hist act).1 with
  | none => rfl
  | some a =>
      have hty := (spikeCheck_fires hist act a hp).1
      simp [countA, hty]

theorem countA_sustained_toList (hist : List AlertEntry) (act : List (AlertKey × ℚ))
    (now : ℚ) :
    countA (sustainedCheck hist act now).1.toList "sustained_high_stress"
      = if (sustainedCheck hist act now).1.isSome then 1 else 0 := by
  cases ha : (sustainedCheck hist act now).1 with
  | none => rfl
  | some a =>
      have hty := (sustainedCheck_fires hist act now a ha).1
      simp [countA, hty]

theorem spikeKeysA_append (as bs : List Alert) :
    spikeKeysA (as ++ bs) = spikeKeysA as ++ spikeKeysA bs := by
  simp [spikeKeysA, List.filter_append]

theorem spikeKeysA_sustained_toList (hist : List AlertEntry) (act : List (AlertKey × ℚ))
    (now : ℚ) :
    spikeKeysA (sustainedCheck hist act now).1.toList = [] := by
  cases ha : (sustainedCheck hist act now).1 with
  | none => rfl
  | some a =>
      have hty := (sustainedCheck_fires hist act now a ha).1
      simp [spikeKeysA, hty]

theorem checkStep_mono (s0 : SessionAlertState) (sc ts : ℚ) (k : AlertKey)
    (h : hasKeyB s0.act k = true) :
    hasKeyB (checkStep s0 sc ts).1.act k = true := by
  simp only [checkStep]
  exact spikeCheck_mono _ _ _ (sustainedCheck_mono _ _ _ _ h)

theorem checkStep_sustained (s0 : SessionAlertState) (sc ts : ℚ) :
    countA (checkStep s0 sc ts).2 "sustained_high_stress" ≤ 1 ∧
    (hasKeyB (checkStep s0 sc ts).1.act AlertKey.sustained = false →
      countA (checkStep s0 sc ts).2 "sustained_high_stress" = 0) ∧
    (hasKeyB s0.act AlertKey.sustained = true →
      countA (checkStep s0 sc ts).2 "sustained_high_stress" = 0 ∧
      hasKeyB (checkStep s0 sc ts).1.act AlertKey.sustained = true) := by
  simp only [checkStep]
  rw [countA_append, countA_spike_toList, countA_sustained_toList]
  refine ⟨?_, ?_, ?_⟩
  · split <;> simp
  · intro hafter
    by_cases hs : (sustainedCheck (pushBounded 1000 s0.hist ⟨sc, ts⟩) s0.act ts).1.isSome
    · obtain ⟨a, ha⟩ := Option.isSome_iff_exists.mp hs
      have hkey := (sustainedCheck_fires _ _ _ a ha).2
      have hkey2 := spikeCheck_mono (pushBounded 1000 s0.hist ⟨sc, ts⟩) _ _ hkey
      rw [hkey2] at hafter
      cases hafter
    · rw [Option.not_isSome_iff_eq_none] at hs
      simp [hs]
  · intro hfired
    have heq := sustainedCheck_of_fired (pushBounded 1000 s0.hist ⟨sc, ts⟩) s0.act ts hfired
    rw [heq]
    constructor
    · simp
    · simp [spikeCheck_sustained_inv, hfired]

theorem checkStep_spike (s0 : SessionAlertState) (sc ts : ℚ) :
    (∀ j, j ∈ spikeKeysA (checkStep s0 sc ts).2 →
        hasKeyB s0.act (AlertKey.spike j) = false ∧
        hasKeyB (checkStep s0 sc ts).1.act (AlertKey.spike j) = true) ∧
    (spikeKeysA (checkStep s0 sc ts).2).length ≤ 1 := by
  simp only [checkStep]
  rw [spikeKeysA_append, spikeKeysA_sustained_toList, List.nil_append]
  cases hp : (spikeCheck (pushBounded 1000 s0.hist ⟨sc, ts⟩)
      (sustainedCheck (pushBounded 1000 s0.hist ⟨sc, ts⟩) s0.act ts).2).1 with
  | none => simp [spikeKeysA]
  | some a =>
      obtain ⟨hty, hold, hnew⟩ := spikeCheck_fires _ _ _ hp
      constructor
      · intro j hj
        simp [spikeKeysA, hty] at hj
        subst hj
        refine ⟨?_, hnew⟩
        rw [← sustainedCheck_spike_inv (pushBounded 1000 s0.hist ⟨sc, ts⟩) s0.act ts
          (pyInt a.timestamp)]
        exact hold
      · simp [spikeKeysA, hty]

theorem check_alerts_state_self (m : AlertManager) (sid : String) (sc ts : ℚ) :
    (check_alerts m sid sc ts).1.state sid
      = some (checkStep ((m.state sid).getD emptySAS) sc ts).1 := by
  simp [check_alerts]

theorem check_alerts_state_other (m : AlertManager) (sid : String) (sc ts : ℚ)
    (k : String) (h : k ≠ sid) :
    (check_alerts m sid sc ts).1.state k = m.state k := by
  simp [check_alerts, h]

theorem clear_session_state_other (m : AlertManager) (sid k : String) (h : k ≠ sid) :
    (clear_session m sid).state k = m.state k := by
  simp [clear_session, h]

theorem countType_append (out1 out2 : List (String × Alert)) (sid ty : String) :
    countType (out1 ++ out2) sid ty = countType out1 sid ty + countType out2 sid ty := by
  simp [countType, List.filter_append]

theorem countType_tag_self (as : List Alert) (sid ty : String) :
    countType (as.map (fun a => (sid, a))) sid ty = countA as ty := by
  induction as with
  | nil => rfl
  | cons a as ih =>
      by_cases hc : a.atype = ty <;>
        simp [countType, countA, List.filter_cons, hc] at ih ⊢ <;>
        exact ih

theorem countType_tag_other (as : List Alert) (sid sid' ty : String) (h : sid' ≠ sid) :
    countType (as.map (fun a => (sid', a))) sid ty = 0 := by
  induction as with
  | nil => rfl
  | cons a as ih =>
      simp [countType, List.filter_cons, h] at ih ⊢

theorem filter_tag_self (as : List Alert) (sid : String) :
    ((as.map (fun a => (sid, a))).filter (fun p => decide (p.1 = sid))).map
      (fun p => p.2) = as := by
  induction as with
  | nil => rfl
  | cons a as ih => simp [List.filter_cons] at ih ⊢; exact ih

theorem filter_tag_other (as : List Alert) (sid sid' : String) (h : sid' ≠ sid) :
    ((as.map (fun a => (sid', a))).filter (fun p => decide (p.1 = sid))).map
      (fun p => p.2) = [] := by
  induction as with
  | nil => rfl
  | cons a as ih => simp [List.filter_cons, h] at ih ⊢

theorem spikeKeysFor_append (out1 out2 : List (String × Alert)) (sid : String) :
    spikeKeysFor (out1 ++ out2) sid = spikeKeysFor out1 sid ++ spikeKeysFor out2 sid := by
  simp [spikeKeysFor, spikeKeysA, List.filter_append]

theorem spikeKeysFor_tag_self (as : List Alert) (sid : String) :
    spikeKeysFor (as.map (fun a => (sid, a))) sid = spikeKeysA as := by
  simp [spikeKeysFor, filter_tag_self]

theorem spikeKeysFor_tag_other (as : List Alert) (sid sid' : String) (h : sid' ≠ sid) :
    spikeKeysFor (as.map (fun a => (sid', a))) sid = [] := by
  simp [spikeKeysFor, filter_tag_other as sid sid' h, spikeKeysA]

theorem check_alerts_alerts (m : AlertManager) (sid : String) (sc ts : ℚ) :
    (check_alerts m sid sc ts).2 = (checkStep ((m.state sid).getD emptySAS) sc ts).2 := rfl

theorem applyOp_check_state (m : AlertManager) (sid : String) (sc ts : ℚ) :
    (applyOp m (AlertOp.check sid sc ts)).1 = (check_alerts m sid sc ts).1 := rfl

theorem applyOp_check_out (m : AlertManager) (sid : String) (sc ts : ℚ) :
    (applyOp m (AlertOp.check sid sc ts)).2
      = (check_alerts m sid sc ts).2.map (fun a => (sid, a)) := by
  simp [applyOp]

theorem applyOp_clear_state (m : AlertManager) (sid : String) :
    (applyOp m (AlertOp.clear sid)).1 = clear_session m sid := rfl

theorem applyOp_clear_out (m : AlertManager) (sid : String) :
    (applyOp m (AlertOp.clear sid)).2 = [] := rfl

theorem runOps_out_cons (m : AlertManager) (op : AlertOp) (rest : List AlertOp) :
    (runOps m (op :: rest)).2 = (applyOp m op).2 ++ (runOps (applyOp m op).1 rest).2 := rfl

theorem runOps_state_cons (m : AlertManager) (op : AlertOp) (rest : List AlertOp) :
    (runOps m (op :: rest)).1 = (runOps (applyOp m op).1 rest).1 := rfl

theorem runOps_sustained_bound (sid : String) :
    ∀ (ops : List AlertOp) (m : AlertManager),
      (∀ op ∈ ops, op ≠ AlertOp.clear sid) →
      countType (runOps m ops).2 sid "sustained_high_stress"
        ≤ (if sustainedFired m sid = true then 0 else 1) := by
  intro ops
  induction ops with
  | nil =>
      intro m _
      simp [runOps, countType]
  | cons op rest ih =>
      intro m hno
      have hop : op ≠ AlertOp.clear sid := hno op (List.mem_cons_self _ _)
      have hrest : ∀ o ∈ rest, o ≠ AlertOp.clear sid :=
        fun o ho => hno o (List.mem_cons_of_mem _ ho)
      rw [runOps_out_cons, countType_append]
      cases op with
      | clear sid2 =>
          have hne : sid2 ≠ sid := fun e => hop (by rw [e])
          rw [applyOp_clear_out, applyOp_clear_state]
          have hstate : sustainedFired (clear_session m sid2) sid = sustainedFired m sid := by
            unfold sustainedFired
            rw [clear_session_state_other m sid2 sid (fun e => hne e.symm)]
          have hIH := ih (clear_session m sid2) hrest
          rw [hstate] at hIH
          have hz : countType ([] : List (String × Alert)) sid "sustained_high_stress" = 0 := rfl
          omega
      | check sid2 sc ts =>
          rw [applyOp_check_out, applyOp_check_state]
          by_cases hsid : sid2 = sid
          · subst hsid
            rw [countType_tag_self, check_alerts_alerts]
            obtain ⟨hle1, himp0, hfired⟩ :=
              checkStep_sustained ((m.state sid2).getD emptySAS) sc ts
            have hstate' : sustainedFired (check_alerts m sid2 sc ts).1 sid2
                = hasKeyB (checkStep ((m.state sid2).getD emptySAS) sc ts).1.act
                    AlertKey.sustained := by
              unfold sustainedFired
              rw [check_alerts_state_self, Option.getD_some]
            have hIH := ih (check_alerts m sid2 sc ts).1 hrest
            by_cases hf : sustainedFired m sid2 = true
            · have hf' : hasKeyB ((m.state sid2).getD emptySAS).act AlertKey.sustained
                  = true := hf
              obtain ⟨hc0, hkt⟩ := hfired hf'
              rw [hc0, if_pos hf]
              rw [if_pos (by rw [hstate']; exact hkt)] at hIH
              omega
            · rw [if_neg hf]
              by_cases hafter : hasKeyB (checkStep ((m.state sid2).getD emptySAS) sc ts).1.act
                  AlertKey.sustained = true
              · rw [if_pos (by rw [hstate']; exact hafter)] at hIH
                omega
              · have hafter' := Bool.eq_false_iff.mpr hafter
                rw [himp0 hafter']
                have hb : (if sustainedFired (check_alerts m sid2 sc ts).1 sid2 = true
                    then 0 else 1) ≤ 1 := by
                  split <;> omega
                omega
          · rw [countType_tag_other _ _ _ _ hsid]
            have hstate2 : sustainedFired (check_alerts m sid2 sc ts).1 sid
                = sustainedFired m sid := by
              unfold sustainedFired
              rw [check_alerts_state_other m sid2 sc ts sid (fun e => hsid e.symm)]
            have hIH := ih (check_alerts m sid2 sc ts).1 hrest
            rw [hstate2] at hIH
            omega

theorem runOps_sustained_persist (sid : String) :
    ∀ (ops : List AlertOp) (m : AlertManager),
      (∀ op ∈ ops, op ≠ AlertOp.clear sid) →
      sustainedFired m sid = true →
      sustainedFired (runOps m ops).1 sid = true := by
  intro ops
  induction ops with
  | nil => intro m _ h; simpa [runOps] using h
  | cons op rest ih =>
      intro m hno h
      have hop : op ≠ AlertOp.clear sid := hno op (List.mem_cons_self _ _)
      have hrest : ∀ o ∈ rest, o ≠ AlertOp.clear sid :=
        fun o ho => hno o (List.mem_cons_of_mem _ ho)
      rw [runOps_state_cons]
      cases op with
      | clear sid2 =>
          have hne : sid2 ≠ sid := fun e => hop (by rw [e])
          apply ih _ hrest
          rw [applyOp_clear_state]
          unfold sustainedFired
          rw [clear_session_state_other m sid2 sid (fun e => hne e.symm)]
          exact h
      | check sid2 sc ts =>
          apply ih _ hrest
          rw [applyOp_check_state]
          by_cases hsid : sid2 = sid
          · subst hsid
            unfold sustainedFired
            rw [check_alerts_state_self]
            exact checkStep_mono _ _ _ _ h
          · unfold sustainedFired
            rw [check_alerts_state_other m sid2 sc ts sid (fun e => hsid e.symm)]
            exact h

theorem runOps_spike_nodup (sid : String) :
    ∀ (ops : List AlertOp) (m : AlertManager),
      (∀ op ∈ ops, op ≠ AlertOp.clear sid) →
      (∀ j, j ∈ spikeKeysFor (runOps m ops).2 sid → spikeFired m sid j = false) ∧
      (spikeKeysFor (runOps m ops).2 sid).Nodup := by
  intro ops
  induction ops with
  | nil => intro m _; simp [runOps, spikeKeysFor, spikeKeysA]
  | cons op rest ih =>
      intro m hno
      have hop : op ≠ AlertOp.clear sid := hno op (List.mem_cons_self _ _)
      have hrest : ∀ o ∈ rest, o ≠ AlertOp.clear sid :=
        fun o ho => hno o (List.mem_cons_of_mem _ ho)
      rw [runOps_out_cons, spikeKeysFor_append]
      cases op with
      | clear sid2 =>
          have hne : sid2 ≠ sid := fun e => hop (by rw [e])
          rw [applyOp_clear_out, applyOp_clear_state]
          obtain ⟨ih1, ih2⟩ := ih (clear_session m sid2) hrest
          have hnil : spikeKeysFor ([] : List (String × Alert)) sid = [] := rfl
          rw [hnil, List.nil_append]
          constructor
          · intro j hj
            have h1 := ih1 j hj
            unfold spikeFired at h1 ⊢
            rwa [clear_session_state_other m sid2 sid (fun e => hne e.symm)] at h1
          · exact ih2
      | check sid2 sc ts =>
          rw [applyOp_check_out, applyOp_check_state]
          by_cases hsid : sid2 = sid
          · subst hsid
            obtain ⟨ih1, ih2⟩ := ih (check_alerts m sid2 sc ts).1 hrest
            obtain ⟨hstep, hlen⟩ := checkStep_spike ((m.state sid2).getD emptySAS) sc ts
            rw [spikeKeysFor_tag_self, check_alerts_alerts]
            constructor
            · intro j hj
              rw [List.mem_append] at hj
              cases hj with
              | inl hmem => exact (hstep j hmem).1
              | inr hmem =>
                  have h1 := ih1 j hmem
                  cases hb : spikeFired m sid2 j with
                  | false => rfl
                  | true =>
                      exfalso
                      have hT : spikeFired (check_alerts m sid2 sc ts).1 sid2 j = true := by
                        unfold spikeFired
                        rw [check_alerts_state_self]
                        exact checkStep_mono _ _ _ _ hb
                      rw [hT] at h1
                      cases h1
            · cases hsk : spikeKeysA (checkStep ((m.state sid2).getD emptySAS) sc ts).2 with
              | nil =>
                  rw [List.nil_append]
                  exact ih2
              | cons j0 tl =>
                  have htl : tl = [] := by
                    rw [hsk] at hlen
                    simpa using List.length_eq_zero.mp (by simpa using hlen)
                  subst htl
                  rw [List.singleton_append, List.nodup_cons]
                  refine ⟨?_, ih2⟩
                  intro hmem
                  have h1 := ih1 j0 hmem
                  have hj0 : j0 ∈ spikeKeysA
                      (checkStep ((m.state sid2).getD emptySAS) sc ts).2 := by
                    rw [hsk]
                    exact List.mem_cons_self _ _
                  have hT : spikeFired (check_alerts m sid2 sc ts).1 sid2 j0 = true := by
                    unfold spikeFired
                    rw [check_alerts_state_self]
                    exact (hstep j0 hj0).2
                  rw [hT] at h1
                  cases h1
          · obtain ⟨ih1, ih2⟩ := ih (check_alerts m sid2 sc ts).1 hrest
            rw [spikeKeysFor_tag_other _ _ _ hsid, List.nil_append]
            constructor
            · intro j hj
              have h1 := ih1 j hj
              unfold spikeFired at h1 ⊢
              rwa [check_alerts_state_other m sid2 sc ts sid (fun e => hsid e.symm)] at h1
            · exact ih2

theorem runOps_state_nil (m : AlertManager) : (runOps m []).1 = m := rfl

theorem runOps_out_nil (m : AlertManager) : (runOps m []).2 = [] := rfl

/-! ### Claim C5 -/

/-- Claim C5: for every session, starting from a state where the session has
no alert state (as after `clear_session` or at birth), any run of
`check_alerts` calls containing no `clear_session` for that session raises
the sustained-high-stress alert at most once — however long the run and
whatever the scores; and once the `sustained_high_stress` key is set, no
clear-free run ever removes it. -/
theorem claim5_sustained_at_most_once (m m2 : AlertManager) (sid : String)
    (ops : List AlertOp)
    (hinit : m.state sid = none)
    (hnoclear : ∀ op ∈ ops, op ≠ AlertOp.clear sid)
    (hfired : sustainedFired m2 sid = true) :
    countType (runOps m ops).2 sid "sustained_high_stress" ≤ 1 ∧
    sustainedFired (runOps m2 ops).1 sid = true := by
  constructor
  · have h := runOps_sustained_bound sid ops m hnoclear
    have h0 : sustainedFired m sid = false := by
      unfold sustainedFired
      rw [hinit]
      rfl
    rw [h0] at h
    simpa using h
  · exact runOps_sustained_persist sid ops m2 hnoclear hfired

/-- Claim C5 witness: two consecutive high samples on a fresh session, and
a manager whose key is already fired. -/
theorem claim5_sustained_at_most_once_witness :
    countType (runOps emptyAM
        [AlertOp.check "s" (9/10) 0, AlertOp.check "s" (9/10) 1]).2 "s"
        "sustained_high_stress" ≤ 1 ∧
    sustainedFired (runOps
        (⟨fun k => if k = "s" then some ⟨[], [(AlertKey.sustained, 0)]⟩ else none⟩ :
          AlertManager)
        [AlertOp.check "s" (9/10) 0, AlertOp.check "s" (9/10) 1]).1 "s" = true :=
  claim5_sustained_at_most_once emptyAM
    ⟨fun k => if k = "s" then some ⟨[], [(AlertKey.sustained, 0)]⟩ else none⟩
    "s" [AlertOp.check "s" (9/10) 0, AlertOp.check "s" (9/10) 1]
    rfl (by decide) (by decide)

/-! ### Claim C6 -/

/-- Claim C6 amended: within one clear-free period, the integer-second keys
of the spike alerts raised for a session are pairwise distinct — so
re-processing a sample with an identical timestamp never fires a second
spike alert, and each spike key fires at most once. -/
theorem claim6_spike_keys_distinct (m : AlertManager) (sid : String) (ops : List AlertOp)
    (hnoclear : ∀ op ∈ ops, op ≠ AlertOp.clear sid) :
    (spikeKeysFor (runOps m ops).2 sid).Nodup :=
  (runOps_spike_nodup sid ops m hnoclear).2

/-- Claim C6 amended witness: the three-sample trace whose second and third
samples both satisfy the spike condition within the same integer second. -/
theorem claim6_spike_keys_distinct_witness :
    (spikeKeysFor (runOps emptyAM [AlertOp.check "s" 0 0,
        AlertOp.check "s" (2/5) (3/10), AlertOp.check "s" (9/10) (7/10)]).2 "s").Nodup :=
  claim6_spike_keys_distinct emptyAM "s"
    [AlertOp.check "s" 0 0, AlertOp.check "s" (2/5) (3/10),
     AlertOp.check "s" (9/10) (7/10)] (by decide)

theorem pyInt_three_tenths : pyInt (3/10 : ℚ) = 0 := by
  rw [pyInt, if_pos (by norm_num), Int.floor_eq_zero_iff]
  constructor <;> norm_num

theorem pyInt_seven_tenths : pyInt (7/10 : ℚ) = 0 := by
  rw [pyInt, if_pos (by norm_num), Int.floor_eq_zero_iff]
  constructor <;> norm_num

theorem checkStep_eval_one :
    checkStep emptySAS 0 0 = (⟨[⟨0, 0⟩], []⟩, []) := by
  norm_num [checkStep, sustainedCheck, spikeCheck, pushBounded, prevWindowScores,
    hasKeyB, emptySAS, ALERT_HIGH_STRESS_THRESHOLD, ALERT_HIGH_STRESS_DURATION,
    ALERT_SPIKE_THRESHOLD, List.filter_cons, List.getLast?]

theorem checkStep_eval_two :
    checkStep ⟨[⟨0, 0⟩], []⟩ (2/5) (3/10)
      = (⟨[⟨0, 0⟩, ⟨2/5, 3/10⟩], [(AlertKey.spike 0, 3/10)]⟩,
         [{ atype := "sudden_stress_spike", sev := "medium",
            timestamp := 3/10, prio := "high" }]) := by
  norm_num [checkStep, sustainedCheck, spikeCheck, pushBounded, prevWindowScores,
    hasKeyB, pyInt_three_tenths, ALERT_HIGH_STRESS_THRESHOLD,
    ALERT_HIGH_STRESS_DURATION, ALERT_SPIKE_THRESHOLD, List.filter_cons,
    List.getLast?]

theorem checkStep_eval_three :
    checkStep ⟨[⟨0, 0⟩, ⟨2/5, 3/10⟩], [(AlertKey.spike 0, 3/10)]⟩ (9/10) (7/10)
      = (⟨[⟨0, 0⟩, ⟨2/5, 3/10⟩, ⟨9/10, 7/10⟩], [(AlertKey.spike 0, 3/10)]⟩, []) := by
  norm_num [checkStep, sustainedCheck, spikeCheck, pushBounded, prevWindowScores,
    hasKeyB, pyInt_seven_tenths, ALERT_HIGH_STRESS_THRESHOLD,
    ALERT_HIGH_STRESS_DURATION, ALERT_SPIKE_THRESHOLD, List.filter_cons,
    List.getLast?]

theorem state_eval_one :
    ((check_alerts emptyAM "s" 0 0).1.state "s").getD emptySAS
      = (⟨[⟨0, 0⟩], []⟩ : SessionAlertState) := by
  rw [check_alerts_state_self, Option.getD_some,
    show (emptyAM.state "s").getD emptySAS = emptySAS from rfl, checkStep_eval_one]

theorem state_eval_two :
    ((check_alerts (check_alerts emptyAM "s" 0 0).1 "s" (2/5) (3/10)).1.state "s").getD
        emptySAS
      = (⟨[⟨0, 0⟩, ⟨2/5, 3/10⟩], [(AlertKey.spike 0, 3/10)]⟩ : SessionAlertState) := by
  rw [check_alerts_state_self, Option.getD_some, state_eval_one, checkStep_eval_two]

/-- Claim C6 counterexample: in the trace with samples (0, t=0),
(0.4, t=0.3), (0.9, t=0.7), the spike condition (increase ≥ 0.3 over the
mean of the preceding window) holds at both t=0.3 and t=0.7 — two distinct
moments — yet only one spike alert is raised, at t=0.3: both moments
truncate to the key `spike_0`, so the second spike is suppressed rather
than producing a distinct alert. -/
theorem claim6_counterexample :
    countType (runOps emptyAM [AlertOp.check "s" 0 0, AlertOp.check "s" (2/5) (3/10),
        AlertOp.check "s" (9/10) (7/10)]).2 "s" "sudden_stress_spike" = 1 ∧
    ((runOps emptyAM [AlertOp.check "s" 0 0, AlertOp.check "s" (2/5) (3/10),
        AlertOp.check "s" (9/10) (7/10)]).2.filter
          (fun p => decide (p.2.atype = "sudden_stress_spike"))).map
        (fun p => p.2.timestamp) = [3/10] ∧
    ((runOps emptyAM [AlertOp.check "s" 0 0, AlertOp.check "s" (2/5) (3/10),
        AlertOp.check "s" (9/10) (7/10)]).1.state "s").map (fun st => st.hist)
      = some [⟨0, 0⟩, ⟨2/5, 3/10⟩, ⟨9/10, 7/10⟩] ∧
    2 ≤ ([⟨0, 0⟩, ⟨2/5, 3/10⟩, ⟨9/10, 7/10⟩] : List AlertEntry).length ∧
    ALERT_SPIKE_THRESHOLD ≤ (9:ℚ)/10 -
      (prevWindowScores [⟨0, 0⟩, ⟨2/5, 3/10⟩, ⟨9/10, 7/10⟩]).sum /
        ((prevWindowScores [⟨0, 0⟩, ⟨2/5, 3/10⟩, ⟨9/10, 7/10⟩]).length : ℚ) ∧
    (3:ℚ)/10 ≠ 7/10 := by
  have hout : (runOps emptyAM [AlertOp.check "s" 0 0, AlertOp.check "s" (2/5) (3/10),
      AlertOp.check "s" (9/10) (7/10)]).2
      = [("s", { atype := "sudden_stress_spike", sev := "medium",
                 timestamp := 3/10, prio := "high" })] := by
    rw [runOps_out_cons, runOps_out_cons, runOps_out_cons, runOps_out_nil,
      applyOp_check_out, applyOp_check_out, applyOp_check_out,
      applyOp_check_state, applyOp_check_state,
      check_alerts_alerts, check_alerts_alerts, check_alerts_alerts,
      show (emptyAM.state "s").getD emptySAS = emptySAS from rfl,
      state_eval_one, state_eval_two,
      checkStep_eval_one, checkStep_eval_two, checkStep_eval_three]
    simp
  have hstate : (runOps emptyAM [AlertOp.check "s" 0 0, AlertOp.check "s" (2/5) (3/10),
      AlertOp.check "s" (9/10) (7/10)]).1.state "s"
      = some ⟨[⟨0, 0⟩, ⟨2/5, 3/10⟩, ⟨9/10, 7/10⟩], [(AlertKey.spike 0, 3/10)]⟩ := by
    rw [runOps_state_cons, runOps_state_cons, runOps_state_cons, runOps_state_nil,
      applyOp_check_state, applyOp_check_state, applyOp_check_state,
      check_alerts_state_self, state_eval_two, checkStep_eval_three]
  refine ⟨?_, ?_, ?_, ?_, ?_, by norm_num⟩
  · rw [hout]
    simp [countType]
  · rw [hout]
    simp
  · rw [hstate]
    rfl
  · norm_num
  · norm_num [prevWindowScores, ALERT_SPIKE_THRESHOLD]

end StressSpec
